import Mathlib

/-!
Verification of the equal-loudness filter cascade
(`audio_filters/equal_loudness_filter.py`).

Real-valued audio samples and coefficients are embedded as exact rationals
(`ℚ`): every claim under examination is structural (error paths, state
shape, composition, reset/determinism equalities) and holds independently
of floating-point rounding; no claim pins an inexact numeric output.

The leaf filter class `IIRFilter` lives in `audio_filters/iir_filter.py`,
which is not part of the sources here (only its caller
`equal_loudness_filter.py` is); it is modelled from the spec, as are its
methods, each marked below.  Histories are stored most-recent-first, one of
the representations the spec explicitly allows ("most-recent-last (or
equivalent fixed-size ring)"), which lines up the history directly with the
coefficient vectors in the recurrence.
-/

/-- Dot product of two coefficient/sample lists, truncating at the shorter. -/
def dotProd : List ℚ → List ℚ → ℚ
  | [], _ => 0
  | _, [] => 0
  | a :: as, b :: bs => a * b + dotProd as bs

/-- Modelled from the spec: the `RecursiveFilter` data model of
`audio_filters/iir_filter.py` (class `IIRFilter`), absent from the sources.
`order` is fixed at construction; `a_coeffs`/`b_coeffs` are the feedback and
feedforward vectors of the active coefficient set; the two histories hold
the last `order` inputs/outputs, most-recent-first. -/
structure IIRFilter where
  order : Nat
  a_coeffs : List ℚ
  b_coeffs : List ℚ
  input_history : List ℚ
  output_history : List ℚ
deriving DecidableEq

/-- Modelled from the spec: `IIRFilter` construction — "created with an
order", both histories "initialized to zeros".  The spec leaves the
pre-`configure` coefficients unspecified (they must be attached before the
first `process` call); we use the normalized identity `1 :: 0…0`, matching
the convention `feedback[0] == 1.0`.  No claim depends on this choice:
construction inside the cascade immediately installs table coefficients. -/
def IIRFilter.new (order : Nat) : IIRFilter :=
  { order := order
    a_coeffs := 1 :: List.replicate order 0
    b_coeffs := 1 :: List.replicate order 0
    input_history := List.replicate order 0
    output_history := List.replicate order 0 }

/-- The two error kinds of the system: `unsupportedRate` carries the
requested rate and the sorted list of supported rates (the content of the
`ValueError` message built in `EqualLoudnessFilter.__init__`);
`configurationError` is the length-mismatch failure of
`IIRFilter.set_coefficients`. -/
inductive FilterError where
  | unsupportedRate (rate : Nat) (supported : List Nat)
  | configurationError
deriving DecidableEq

/-- Modelled from the spec: `IIRFilter.set_coefficients` of
`audio_filters/iir_filter.py`, absent from the sources — "installs a
CoefficientSet.  Fails with `ConfigurationError` if either sequence's
length ≠ `order + 1`.  Does not reset history." -/
def IIRFilter.set_coefficients (f : IIRFilter) (a_coeffs b_coeffs : List ℚ) :
    Except FilterError IIRFilter :=
  if a_coeffs.length ≠ f.order + 1 then
    .error .configurationError
  else if b_coeffs.length ≠ f.order + 1 then
    .error .configurationError
  else
    .ok { f with a_coeffs := a_coeffs, b_coeffs := b_coeffs }

/-- Modelled from the spec: `IIRFilter.process` of
`audio_filters/iir_filter.py`, absent from the sources — the direct-form
recurrence
`output = (feedforward · [sample, inputHistory] − feedback[1..] · outputHistory) / feedback[0]`
followed by shifting `sample` into `input_history` and `output` into
`output_history`, the oldest entry of each evicted (fixed-size window).
Returns the output together with the updated filter state. -/
def IIRFilter.process (f : IIRFilter) (sample : ℚ) : ℚ × IIRFilter :=
  let output :=
    (dotProd f.b_coeffs (sample :: f.input_history)
      - dotProd f.a_coeffs.tail f.output_history) / f.a_coeffs.headD 0
  (output,
    { f with
      input_history := (sample :: f.input_history).take f.order
      output_history := (output :: f.output_history).take f.order })

/-- One entry of the embedded ReplayGain coefficient table: the 10th-order
yulewalk pair and the 2nd-order Butterworth pair for one sample rate. -/
structure CoefficientProfile where
  yule_a : List ℚ
  yule_b : List ℚ
  butter_a : List ℚ
  butter_b : List ℚ
deriving DecidableEq

/-- The 44100 Hz entry of `_REPLAYGAIN_COEFFS`. -/
def coeffs44100 : CoefficientProfile :=
  { yule_a := [1.0, -3.47845948550071, 6.36317777566148, -8.54751527471874,
      9.47693607801280, -8.81498681370155, 6.85401540936998, -4.39470996079559,
      2.19611684890774, -0.75104302451432, 0.13149317958808]
    yule_b := [0.05418656406430, -0.02911007808948, -0.00848709379851,
      -0.00851165645469, -0.00834990904936, 0.02245293253339, -0.02596338512915,
      0.01624864962975, -0.00240879051584, 0.00674613682247, -0.00187763777362]
    butter_a := [1.0, -1.96977855582618, 0.97022847566350]
    butter_b := [0.98500175787242, -1.97000351574484, 0.98500175787242] }

/-- The 48000 Hz entry of `_REPLAYGAIN_COEFFS`. -/
def coeffs48000 : CoefficientProfile :=
  { yule_a := [1.0, -3.84664617118067, 7.81501653005538, -11.34170355132042,
      13.05504219327545, -12.28759895145294, 9.48293806319790, -5.87257861775999,
      2.75465861874613, -0.86984376593551, 0.13919314567432]
    yule_b := [0.03857599435200, -0.02160367184185, -0.00123395316851,
      -0.00009291677959, -0.01655260341619, 0.02161526843274, -0.02074045215285,
      0.00594298065125, 0.00306428023191, 0.00012025322027, 0.00288463683916]
    butter_a := [1.0, -1.97223372919527, 0.97261396931306]
    butter_b := [0.98621192462708, -1.97242384925416, 0.98621192462708] }

/-- The 32000 Hz entry of `_REPLAYGAIN_COEFFS`. -/
def coeffs32000 : CoefficientProfile :=
  { yule_a := [1.0, -2.37898834973084, 2.84868151156327, -2.64577170229825,
      2.23697657451713, -1.67148153367602, 1.00595954808547, -0.45953458054983,
      0.16378164858596, -0.05032077717131, 0.02347897407020]
    yule_b := [0.15457299681924, -0.09331049056315, -0.06247880153653,
      0.02163541888798, -0.05588393329856, 0.04781476674921, 0.00222312597743,
      0.03174092540049, -0.01390589421898, 0.00651420667831, -0.00881362733839]
    butter_a := [1.0, -1.95835380975398, 0.95920349965459]
    butter_b := [0.97938932735214, -1.95877865470428, 0.97938932735214] }

/-- The embedded coefficient table `_REPLAYGAIN_COEFFS`, an association list
keyed by sample rate in the source's insertion order (44100, 48000, 32000). -/
def REPLAYGAIN_COEFFS : List (Nat × CoefficientProfile) :=
  [(44100, coeffs44100), (48000, coeffs48000), (32000, coeffs32000)]

/-- `sorted(_REPLAYGAIN_COEFFS)`: the table's keys in ascending order, as
listed in the `ValueError` message. -/
def supportedRates : List Nat :=
  (REPLAYGAIN_COEFFS.map Prod.fst).insertionSort (· ≤ ·)

/-- The cascade of `EqualLoudnessFilter`: the 10th-order yulewalk shaping
stage and the 2nd-order Butterworth high-pass stage. -/
structure EqualLoudnessFilter where
  yulewalk_filter : IIRFilter
  butterworth_filter : IIRFilter
deriving DecidableEq

/-- `EqualLoudnessFilter.__init__`: reject a sample rate missing from
`_REPLAYGAIN_COEFFS` with the unsupported-rate error; otherwise build the
order-10 yulewalk filter and the order-2 Butterworth filter, each
configured with its half of the looked-up profile.  The Python default
argument is `samplerate = 44100`. -/
def EqualLoudnessFilter.new (samplerate : Nat := 44100) :
    Except FilterError EqualLoudnessFilter :=
  match List.lookup samplerate REPLAYGAIN_COEFFS with
  | none => .error (.unsupportedRate samplerate supportedRates)
  | some coeffs =>
    match (IIRFilter.new 10).set_coefficients coeffs.yule_a coeffs.yule_b with
    | .error e => .error e
    | .ok yulewalk =>
      match (IIRFilter.new 2).set_coefficients coeffs.butter_a coeffs.butter_b with
      | .error e => .error e
      | .ok butterworth => .ok ⟨yulewalk, butterworth⟩

/-- `EqualLoudnessFilter.reset`: overwrite each stage's two histories with
`[0.0] * order`, the size read off that stage's own `order` field;
coefficients and orders untouched. -/
def EqualLoudnessFilter.reset (e : EqualLoudnessFilter) : EqualLoudnessFilter :=
  { yulewalk_filter :=
      { e.yulewalk_filter with
        input_history := List.replicate e.yulewalk_filter.order 0
        output_history := List.replicate e.yulewalk_filter.order 0 }
    butterworth_filter :=
      { e.butterworth_filter with
        input_history := List.replicate e.butterworth_filter.order 0
        output_history := List.replicate e.butterworth_filter.order 0 } }

/-- `EqualLoudnessFilter.process`: feed the sample through the yulewalk
stage, feed that result through the Butterworth stage, return the latter's
output (together with the updated cascade state). -/
def EqualLoudnessFilter.process (e : EqualLoudnessFilter) (sample : ℚ) :
    ℚ × EqualLoudnessFilter :=
  let tmp := e.yulewalk_filter.process sample
  let out := e.butterworth_filter.process tmp.1
  (out.1, ⟨tmp.2, out.2⟩)

/-- Run a whole input sequence through the cascade, one `process` call per
sample in order; returns the output sequence and the final state. -/
def EqualLoudnessFilter.runList (e : EqualLoudnessFilter) :
    List ℚ → List ℚ × EqualLoudnessFilter
  | [] => ([], e)
  | x :: xs =>
    let step := e.process x
    let rest := step.2.runList xs
    (step.1 :: rest.1, rest.2)

/-- The cascade produced by a successful construction from profile `p`:
order-10 shaping stage holding the yulewalk pair, order-2 high-pass stage
holding the Butterworth pair, all histories zero. -/
def profileCascade (p : CoefficientProfile) : EqualLoudnessFilter :=
  ⟨⟨10, p.yule_a, p.yule_b, List.replicate 10 0, List.replicate 10 0⟩,
   ⟨2, p.butter_a, p.butter_b, List.replicate 2 0, List.replicate 2 0⟩⟩

/-- The configuration (order and coefficient vectors) of both stages; a
`process` call never changes it, and `reset` depends on nothing else. -/
def EqualLoudnessFilter.config (e : EqualLoudnessFilter) :
    (Nat × List ℚ × List ℚ) × (Nat × List ℚ × List ℚ) :=
  ((e.yulewalk_filter.order, e.yulewalk_filter.a_coeffs, e.yulewalk_filter.b_coeffs),
   (e.butterworth_filter.order, e.butterworth_filter.a_coeffs, e.butterworth_filter.b_coeffs))

/-- Construction with the argument omitted, `EqualLoudnessFilter()`: Lean
fills the declared default `44100` exactly as the Python default argument
does. -/
def EqualLoudnessFilter.newDefault : Except FilterError EqualLoudnessFilter :=
  EqualLoudnessFilter.new

lemma lookup_none (r : Nat) (h44 : r ≠ 44100) (h48 : r ≠ 48000) (h32 : r ≠ 32000) :
    List.lookup r REPLAYGAIN_COEFFS = none := by
  have b44 : (r == 44100) = false := by simpa using h44
  have b48 : (r == 48000) = false := by simpa using h48
  have b32 : (r == 32000) = false := by simpa using h32
  simp [REPLAYGAIN_COEFFS, List.lookup, b44, b48, b32]

lemma new_eq_of_lookup (r : Nat) (p : CoefficientProfile)
    (h : List.lookup r REPLAYGAIN_COEFFS = some p) :
    EqualLoudnessFilter.new r = .ok (profileCascade p) := by
  by_cases h44 : r = 44100
  · subst h44
    rw [show List.lookup 44100 REPLAYGAIN_COEFFS = some coeffs44100 from rfl,
      Option.some.injEq] at h
    subst h
    rfl
  by_cases h48 : r = 48000
  · subst h48
    rw [show List.lookup 48000 REPLAYGAIN_COEFFS = some coeffs48000 from rfl,
      Option.some.injEq] at h
    subst h
    rfl
  by_cases h32 : r = 32000
  · subst h32
    rw [show List.lookup 32000 REPLAYGAIN_COEFFS = some coeffs32000 from rfl,
      Option.some.injEq] at h
    subst h
    rfl
  rw [lookup_none r h44 h48 h32] at h
  exact Option.noConfusion h

lemma new_eq_error (r : Nat) (h : r ∉ [32000, 44100, 48000]) :
    EqualLoudnessFilter.new r = .error (.unsupportedRate r [32000, 44100, 48000]) := by
  simp only [List.mem_cons, List.not_mem_nil, or_false, not_or] at h
  obtain ⟨h32, h44, h48⟩ := h
  unfold EqualLoudnessFilter.new
  rw [lookup_none r h44 h48 h32]
  rfl

lemma new_ok_cases (r : Nat) (e : EqualLoudnessFilter)
    (h : EqualLoudnessFilter.new r = .ok e) :
    ∃ p, List.lookup r REPLAYGAIN_COEFFS = some p ∧ e = profileCascade p := by
  cases hl : List.lookup r REPLAYGAIN_COEFFS with
  | none =>
    by_cases h44 : r = 44100
    · rw [h44] at hl; exact Option.noConfusion hl
    by_cases h48 : r = 48000
    · rw [h48] at hl; exact Option.noConfusion hl
    by_cases h32 : r = 32000
    · rw [h32] at hl; exact Option.noConfusion hl
    rw [new_eq_error r (by simp [h44, h48, h32])] at h
    exact Except.noConfusion h
  | some p =>
    refine ⟨p, rfl, ?_⟩
    rw [new_eq_of_lookup r p hl, Except.ok.injEq] at h
    exact h.symm

lemma dotProd_replicate_zero (l : List ℚ) (n : Nat) :
    dotProd l (List.replicate n 0) = 0 := by
  induction l generalizing n with
  | nil => simp [dotProd]
  | cons a as ih =>
    cases n with
    | zero => simp [dotProd]
    | succ m => simp [List.replicate, dotProd, ih]

lemma iir_process_zero (f : IIRFilter) (n m : Nat)
    (hin : f.input_history = List.replicate n 0)
    (hout : f.output_history = List.replicate m 0) :
    (f.process 0).1 = 0 := by
  show (dotProd f.b_coeffs (0 :: f.input_history)
      - dotProd f.a_coeffs.tail f.output_history) / f.a_coeffs.headD 0 = 0
  rw [hin, hout, show (0 : ℚ) :: List.replicate n 0 = List.replicate (n + 1) 0 from rfl,
    dotProd_replicate_zero, dotProd_replicate_zero, sub_zero, zero_div]

lemma cascade_process_zero (e : EqualLoudnessFilter) (n₁ m₁ n₂ m₂ : Nat)
    (h1 : e.yulewalk_filter.input_history = List.replicate n₁ 0)
    (h2 : e.yulewalk_filter.output_history = List.replicate m₁ 0)
    (h3 : e.butterworth_filter.input_history = List.replicate n₂ 0)
    (h4 : e.butterworth_filter.output_history = List.replicate m₂ 0) :
    (e.process 0).1 = 0 := by
  have hy : (e.yulewalk_filter.process 0).1 = 0 := iir_process_zero _ n₁ m₁ h1 h2
  show (e.butterworth_filter.process (e.yulewalk_filter.process 0).1).1 = 0
  rw [hy]
  exact iir_process_zero _ n₂ m₂ h3 h4

lemma process_config (e : EqualLoudnessFilter) (x : ℚ) :
    (e.process x).2.config = e.config := rfl

lemma runList_config (S : List ℚ) (e : EqualLoudnessFilter) :
    (e.runList S).2.config = e.config := by
  induction S generalizing e with
  | nil => rfl
  | cons x xs ih => exact ih (e.process x).2

lemma reset_congr (d e : EqualLoudnessFilter) (h : d.config = e.config) :
    d.reset = e.reset := by
  have h1 : d.yulewalk_filter.order = e.yulewalk_filter.order := congrArg (·.1.1) h
  have h2 : d.yulewalk_filter.a_coeffs = e.yulewalk_filter.a_coeffs := congrArg (·.1.2.1) h
  have h3 : d.yulewalk_filter.b_coeffs = e.yulewalk_filter.b_coeffs := congrArg (·.1.2.2) h
  have h4 : d.butterworth_filter.order = e.butterworth_filter.order := congrArg (·.2.1) h
  have h5 : d.butterworth_filter.a_coeffs = e.butterworth_filter.a_coeffs := congrArg (·.2.2.1) h
  have h6 : d.butterworth_filter.b_coeffs = e.butterworth_filter.b_coeffs := congrArg (·.2.2.2) h
  show (⟨⟨d.yulewalk_filter.order, d.yulewalk_filter.a_coeffs, d.yulewalk_filter.b_coeffs,
      List.replicate d.yulewalk_filter.order 0, List.replicate d.yulewalk_filter.order 0⟩,
    ⟨d.butterworth_filter.order, d.butterworth_filter.a_coeffs, d.butterworth_filter.b_coeffs,
      List.replicate d.butterworth_filter.order 0,
      List.replicate d.butterworth_filter.order 0⟩⟩ : EqualLoudnessFilter) = _
  rw [h1, h2, h3, h4, h5, h6]
  rfl

lemma profileCascade_reset (p : CoefficientProfile) :
    (profileCascade p).reset = profileCascade p := rfl

/-- C1: constructing the cascade with a sample rate absent from the
coefficient table fails with the unsupported-rate error carrying the
requested rate and the sorted supported rates {32000, 44100, 48000}; rate
12345 in particular fails that way; every rate in the table constructs
without error; and for every rate this lookup is the only validation that
can reject construction. -/
theorem construction_rate_validation :
    supportedRates = [32000, 44100, 48000]
    ∧ EqualLoudnessFilter.new 12345
        = .error (.unsupportedRate 12345 [32000, 44100, 48000])
    ∧ (∀ r : Nat, r ∉ [32000, 44100, 48000] →
        EqualLoudnessFilter.new r = .error (.unsupportedRate r [32000, 44100, 48000]))
    ∧ (∀ r : Nat, r ∈ [32000, 44100, 48000] →
        (EqualLoudnessFilter.new r).isOk = true) := by
  refine ⟨rfl, rfl, new_eq_error, ?_⟩
  intro r hr
  fin_cases hr
  · rfl
  · rfl
  · rfl

theorem construction_rate_validation_spot :
    EqualLoudnessFilter.new 777 = .error (.unsupportedRate 777 [32000, 44100, 48000])
    ∧ (EqualLoudnessFilter.new 48000).isOk = true :=
  ⟨construction_rate_validation.2.2.1 777 (by decide),
   construction_rate_validation.2.2.2 48000 (by decide)⟩

/-- C2: for every cascade state and every sample, `process` feeds the
sample through the yulewalk (shaping) stage, feeds that stage's output to
the Butterworth (high-pass) stage, and returns the high-pass output — the
returned value and both updated stage states are exactly the sequential
composition of the two stage `process` calls. -/
theorem process_composes_stages (e : EqualLoudnessFilter) (x : ℚ) :
    e.process x
      = ((e.butterworth_filter.process (e.yulewalk_filter.process x).1).1,
         ⟨(e.yulewalk_filter.process x).2,
          (e.butterworth_filter.process (e.yulewalk_filter.process x).1).2⟩) := rfl

/-- C3: for every sample rate with a table entry, construction succeeds and
builds exactly two stages: a shaping filter of order 10 holding the
profile's yulewalk feedback/feedforward pair and a high-pass filter of
order 2 holding the profile's Butterworth pair (histories freshly zero). -/
theorem construction_builds_two_configured_stages :
    ∀ (r : Nat) (p : CoefficientProfile),
      List.lookup r REPLAYGAIN_COEFFS = some p →
      EqualLoudnessFilter.new r =
        .ok ⟨⟨10, p.yule_a, p.yule_b, List.replicate 10 0, List.replicate 10 0⟩,
             ⟨2, p.butter_a, p.butter_b, List.replicate 2 0, List.replicate 2 0⟩⟩ :=
  fun r p h => new_eq_of_lookup r p h

theorem construction_builds_two_configured_stages_spot :
    EqualLoudnessFilter.new 44100 =
      .ok ⟨⟨10, coeffs44100.yule_a, coeffs44100.yule_b,
            List.replicate 10 0, List.replicate 10 0⟩,
           ⟨2, coeffs44100.butter_a, coeffs44100.butter_b,
            List.replicate 2 0, List.replicate 2 0⟩⟩ :=
  construction_builds_two_configured_stages 44100 coeffs44100 rfl

/-- C4: zero-state, zero-input identity — a freshly constructed cascade
(any rate in the table, hence any coefficient set in the table) returns
`0` from `process 0`, and so does any freshly reset cascade. -/
theorem zero_state_zero_input_identity :
    (∀ (r : Nat) (e : EqualLoudnessFilter),
      EqualLoudnessFilter.new r = .ok e → (e.process 0).1 = 0)
    ∧ (∀ e : EqualLoudnessFilter, (e.reset.process 0).1 = 0) := by
  constructor
  · intro r e h
    obtain ⟨p, -, rfl⟩ := new_ok_cases r e h
    exact cascade_process_zero _ 10 10 2 2 rfl rfl rfl rfl
  · intro e
    exact cascade_process_zero e.reset e.yulewalk_filter.order e.yulewalk_filter.order
      e.butterworth_filter.order e.butterworth_filter.order rfl rfl rfl rfl

theorem zero_state_zero_input_identity_spot :
    ((profileCascade coeffs44100).process 0).1 = 0 :=
  zero_state_zero_input_identity.1 44100 (profileCascade coeffs44100) rfl

/-- C5: after `reset`, both histories of each stage equal `[0.0] * order`
for that stage's own order — 10 for the shaping stage and 2 for the
high-pass stage of any constructed cascade, each stage independently —
while both stages' coefficient vectors (and orders) are unchanged. -/
theorem reset_zeroes_histories_only :
    (∀ e : EqualLoudnessFilter,
      e.reset.yulewalk_filter.input_history = List.replicate e.yulewalk_filter.order 0
      ∧ e.reset.yulewalk_filter.output_history = List.replicate e.yulewalk_filter.order 0
      ∧ e.reset.butterworth_filter.input_history
          = List.replicate e.butterworth_filter.order 0
      ∧ e.reset.butterworth_filter.output_history
          = List.replicate e.butterworth_filter.order 0
      ∧ e.reset.yulewalk_filter.a_coeffs = e.yulewalk_filter.a_coeffs
      ∧ e.reset.yulewalk_filter.b_coeffs = e.yulewalk_filter.b_coeffs
      ∧ e.reset.butterworth_filter.a_coeffs = e.butterworth_filter.a_coeffs
      ∧ e.reset.butterworth_filter.b_coeffs = e.butterworth_filter.b_coeffs
      ∧ e.reset.yulewalk_filter.order = e.yulewalk_filter.order
      ∧ e.reset.butterworth_filter.order = e.butterworth_filter.order)
    ∧ (∀ (r : Nat) (e : EqualLoudnessFilter), EqualLoudnessFilter.new r = .ok e →
        e.yulewalk_filter.order = 10 ∧ e.butterworth_filter.order = 2) := by
  constructor
  · intro e
    exact ⟨rfl, rfl, rfl, rfl, rfl, rfl, rfl, rfl, rfl, rfl⟩
  · intro r e h
    obtain ⟨p, -, rfl⟩ := new_ok_cases r e h
    exact ⟨rfl, rfl⟩

theorem reset_zeroes_histories_only_spot :
    (profileCascade coeffs48000).yulewalk_filter.order = 10
    ∧ (profileCascade coeffs48000).butterworth_filter.order = 2 :=
  reset_zeroes_histories_only.2 48000 (profileCascade coeffs48000) rfl

/-- C6: reset equivalence — after any sequence `S` of `process` calls on a
constructed cascade, `reset()` followed by `process x` produces the same
output (and the same resulting state) as `process x` on the freshly
constructed cascade with the identical coefficients. -/
theorem reset_equivalence_fresh :
    ∀ (r : Nat) (e : EqualLoudnessFilter), EqualLoudnessFilter.new r = .ok e →
      ∀ (S : List ℚ) (x : ℚ),
        ((e.runList S).2.reset).process x = e.process x := by
  intro r e h S x
  obtain ⟨p, -, rfl⟩ := new_ok_cases r e h
  rw [reset_congr _ _ (runList_config S (profileCascade p)), profileCascade_reset]

theorem reset_equivalence_fresh_spot :
    (((profileCascade coeffs44100).runList [1, 2]).2.reset).process 3
      = (profileCascade coeffs44100).process 3 :=
  reset_equivalence_fresh 44100 (profileCascade coeffs44100) rfl [1, 2] 3

/-- C7: `set_coefficients` on a filter of any order `n` rejects a feedback
or feedforward vector whose length is not `n + 1` with the configuration
error (covering too-short and too-long, any order including 2 and 10),
succeeds whenever both lengths are `n + 1`, and on success installs exactly
the given vectors while leaving both history buffers (and the order)
untouched. -/
theorem set_coefficients_length_validation :
    ∀ (f : IIRFilter) (a b : List ℚ),
      ((a.length ≠ f.order + 1 ∨ b.length ≠ f.order + 1) →
        f.set_coefficients a b = .error .configurationError)
      ∧ (a.length = f.order + 1 → b.length = f.order + 1 →
        f.set_coefficients a b
          = .ok ⟨f.order, a, b, f.input_history, f.output_history⟩) := by
  intro f a b
  constructor
  · intro h
    rcases h with h | h
    · simp [IIRFilter.set_coefficients, h]
    · by_cases ha : a.length = f.order + 1
      · simp [IIRFilter.set_coefficients, ha, h]
      · simp [IIRFilter.set_coefficients, ha]
  · intro ha hb
    simp [IIRFilter.set_coefficients, ha, hb]

theorem set_coefficients_length_validation_spot :
    (IIRFilter.new 2).set_coefficients [1, 2] [1, 2, 3] = .error .configurationError
    ∧ (IIRFilter.new 2).set_coefficients [1, 2, 3, 4] [1, 2, 3]
        = .error .configurationError
    ∧ (IIRFilter.new 10).set_coefficients (List.replicate 11 1) (List.replicate 11 2)
        = .ok ⟨10, List.replicate 11 1, List.replicate 11 2,
            (IIRFilter.new 10).input_history, (IIRFilter.new 10).output_history⟩ :=
  ⟨(set_coefficients_length_validation _ _ _).1 (Or.inl (by decide)),
   (set_coefficients_length_validation _ _ _).1 (Or.inl (by decide)),
   (set_coefficients_length_validation _ _ _).2 (by decide) (by decide)⟩

/-- C8: coefficient-table invariant — every entry of the embedded table has
yulewalk vectors of exactly 11 elements (order 10 + 1) and Butterworth
vectors of exactly 3 elements (order 2 + 1), and each feedback vector's
first element equals 1.0 (in particular it is nonzero). -/
theorem coefficient_table_invariant :
    ∀ p ∈ REPLAYGAIN_COEFFS,
      p.2.yule_a.length = 11 ∧ p.2.yule_b.length = 11
      ∧ p.2.butter_a.length = 3 ∧ p.2.butter_b.length = 3
      ∧ p.2.yule_a.headD 0 = 1 ∧ p.2.yule_a.headD 0 ≠ 0
      ∧ p.2.butter_a.headD 0 = 1 ∧ p.2.butter_a.headD 0 ≠ 0 := by
  intro p hp
  fin_cases hp <;>
    norm_num [coeffs44100, coeffs48000, coeffs32000, REPLAYGAIN_COEFFS]

theorem coefficient_table_invariant_spot :
    coeffs44100.yule_a.length = 11 ∧ coeffs44100.yule_b.length = 11
    ∧ coeffs44100.butter_a.length = 3 ∧ coeffs44100.butter_b.length = 3
    ∧ coeffs44100.yule_a.headD 0 = 1 ∧ coeffs44100.yule_a.headD 0 ≠ 0
    ∧ coeffs44100.butter_a.headD 0 = 1 ∧ coeffs44100.butter_a.headD 0 ≠ 0 :=
  coefficient_table_invariant (44100, coeffs44100) (List.Mem.head _)

/-- C9: determinism — two cascades constructed with the same sample rate
hold identical state, and feeding them the identical input sequence in the
identical order yields identical output sequences; the embedded `process`
is a pure function of the instance's own state and the new sample, with no
other input. -/
theorem determinism_same_rate_same_outputs :
    ∀ (r : Nat) (e₁ e₂ : EqualLoudnessFilter) (xs : List ℚ),
      EqualLoudnessFilter.new r = .ok e₁ → EqualLoudnessFilter.new r = .ok e₂ →
      e₁ = e₂ ∧ (e₁.runList xs).1 = (e₂.runList xs).1 := by
  intro r e₁ e₂ xs h₁ h₂
  rw [h₁, Except.ok.injEq] at h₂
  exact ⟨h₂, by rw [h₂]⟩

theorem determinism_same_rate_same_outputs_spot :
    profileCascade coeffs32000 = profileCascade coeffs32000
    ∧ ((profileCascade coeffs32000).runList [1, 2, 3]).1
        = ((profileCascade coeffs32000).runList [1, 2, 3]).1 :=
  determinism_same_rate_same_outputs 32000 _ _ [1, 2, 3] rfl rfl

/-- C10: constructing with no argument uses the default sample rate 44100:
it is the same computation as constructing with 44100 explicitly, and that
construction succeeds (44100 is in the table). -/
theorem default_rate_is_44100 :
    EqualLoudnessFilter.newDefault = EqualLoudnessFilter.new 44100
    ∧ (EqualLoudnessFilter.new 44100).isOk = true :=
  ⟨rfl, rfl⟩
